import Mathlib

/-!
Verification of the credential-lifecycle core of the Terraform Cloud /
Enterprise secrets plugin (hashicorp/vault-plugin-secrets-terraform).

The Go source is shallowly embedded: each handler is translated into a pure
Lean function over explicit state.  Remote API effects (token creation,
token deletion, resource reads) and storage writes are driven by outcome
oracles, so that one Lean function covers every execution of the handler:
each choice of oracle values picks one execution path.  Handlers that issue
remote calls also return the list of calls they made, in order, so that
ordering and counting properties can be stated about executions.

Storage is modelled as an association list keyed by path suffix; a storage
put either replaces the whole JSON entry or fails leaving the entry as it
was (the host key-value store writes an entry atomically).
-/

namespace TfPlugin

/-- Configuration record, from tfConfig in path_config.go: management token,
optional token kind and ids used for rotation, old-token disposition,
remote address data, and the embedded automated-rotation parameters. -/
structure TfConfig where
  token : String
  tokenType : String
  tokenID : String
  id : String
  oldToken : String
  address : String
  basePath : String
  rotationSchedule : String
  rotationWindow : Int
  rotationPeriod : Int
  disableAutomatedRotation : Bool
  deriving DecidableEq, Repr

/-- Remote-side events emitted by the root-rotation handler
(rotateRootToken in path_config_rotate.go), in the order the handler
performs them.  A mint event records the remote token-creation call, a
putConfig event records a successful write of the configuration entry, and
a deleteOld event records the remote deletion call for the superseded
token. -/
inductive RotEvent where
  | mint (tokenType : String) (id : String)
  | putConfig (cfg : TfConfig)
  | deleteOld (tokenID : String)
  deriving DecidableEq, Repr

/-- Error outcomes of rotateRootToken, one constructor per distinct return
site in the Go code. -/
inductive RotError where
  | noConfig
  | clientError
  | missingFields
  | unsupportedTokenType (t : String)
  | mintFailed
  | saveAfterRotation
  | deleteOldFailed
  deriving DecidableEq, Repr

/-- Oracle fixing the outcome of each effect rotateRootToken performs:
whether the client can be built, the result of the remote token-creation
call (new token value and new token id, or failure), whether the storage
put succeeds, and whether the remote delete of the old token succeeds. -/
structure RotOutcome where
  clientOk : Bool
  mintResult : Option (String × String)
  putOk : Bool
  deleteOk : Bool
  deriving DecidableEq, Repr

/-- Body of rotateRootToken from path_config_rotate.go once getConfig has
produced a configuration.  Returns the list of remote/storage events in the
order performed, the operation result, and the final configuration storage
entry.  The deleteOld event is emitted whenever the delete call is issued,
whether or not it succeeds. -/
def rotateRootTokenWithConfig (config : TfConfig) (o : RotOutcome) :
    List RotEvent × Except RotError Unit × Option TfConfig :=
    if !o.clientOk then ([], .error .clientError, some config)
    else if config.tokenType = "" ∨ config.id = "" ∨ config.tokenID = "" then
      ([], .error .missingFields, some config)
    else if ¬(config.tokenType = "organization" ∨ config.tokenType = "team" ∨
              config.tokenType = "user") then
      ([], .error (.unsupportedTokenType config.tokenType), some config)
    else
      match o.mintResult with
      | none => ([.mint config.tokenType config.id], .error .mintFailed, some config)
      | some (newToken, newID) =>
        let config' : TfConfig := { config with token := newToken, tokenID := newID }
        if !o.putOk then
          ([.mint config.tokenType config.id], .error .saveAfterRotation, some config)
        else
          if config.oldToken = "delete" ∧
             (config.tokenType = "team" ∨ config.tokenType = "user") then
            ([.mint config.tokenType config.id, .putConfig config',
              .deleteOld config.tokenID],
             if o.deleteOk then .ok () else .error .deleteOldFailed,
             some config')
          else
            ([.mint config.tokenType config.id, .putConfig config'], .ok (), some config')

/-- rotateRootToken from path_config_rotate.go, the callback of the
config/rotate endpoint: reads the configuration from storage and runs the
rotation body on it. -/
def rotateRootToken (storage : Option TfConfig) (o : RotOutcome) :
    List RotEvent × Except RotError Unit × Option TfConfig :=
  match storage with
  | none => ([], .error .noConfig, none)
  | some config => rotateRootTokenWithConfig config o

/-- Concrete team-token configuration used as witness input. -/
def rotateCfgExample : TfConfig :=
  ⟨"tok-old", "team", "at-old", "team-1", "delete", "a", "b", "", 0, 0, false⟩

/-- Concrete all-success outcome oracle used as witness input. -/
def rotateOutExample : RotOutcome :=
  ⟨true, some ("tok-new", "at-new"), true, true⟩

/-- Concrete outcome oracle where the mint succeeds and the storage put
fails, used as witness input. -/
def rotateOutPutFail : RotOutcome :=
  ⟨true, some ("tok-new", "at-new"), false, true⟩

/-- Team creation options parsed from the team_options JSON field
(TeamOptions in the token_type role-store variant).  Only presence and
identity matter for the verified properties, so the payload is kept to its
visibility string. -/
structure TeamOptions where
  visibility : String
  deriving DecidableEq, Repr

/-- Role entry: union of the fields of the terraformRoleEntry variants in
the role-store source files (the credential_type variant, the token_type
variant, and the multi-team-token credentials variant).  Each embedded
handler reads and writes only the fields its own source variant uses. -/
structure RoleEntry where
  name : String
  organization : String
  teamID : String
  userID : String
  description : String
  ttl : Int
  maxTTL : Int
  credentialType : String
  tokenType : String
  multipleTeamTokens : Bool
  teamOptions : Option TeamOptions
  token : String
  tokenID : String
  deriving DecidableEq, Repr

/-- The zero value of a role entry, as produced by new(terraformRoleEntry). -/
def RoleEntry.blank : RoleEntry :=
  ⟨"", "", "", "", "", 0, 0, "", "", false, none, "", ""⟩

/-- Role storage: association list from role name to entry, modelling the
role/<name> keys of the host key-value store. -/
abbrev RoleStore := List (String × RoleEntry)

/-- getRole: look up a role entry by name in storage. -/
def getRole (s : RoleStore) (name : String) : Option RoleEntry :=
  (s.find? (fun p => p.1 = name)).map (fun p => p.2)

/-- setRole: store an entry under a name, replacing any previous entry. -/
def setRole (s : RoleStore) (name : String) (e : RoleEntry) : RoleStore :=
  (name, e) :: s.filter (fun p => p.1 ≠ name)

/-- Remote API calls issued by the embedded handlers, in issue order. -/
inductive RemoteCall where
  | readOrganization (org : String)
  | readTeam (teamID : String)
  | createOrgToken (org : String)
  | createTeamToken (teamID : String)
  | createTeamTokenWithOptions (teamID : String)
  | createUserToken (userID : String)
  | createTeam (org : String)
  deriving DecidableEq, Repr

/-- Whether a remote call creates a token on the remote platform. -/
def RemoteCall.isTokenCreation : RemoteCall → Bool
  | .createOrgToken _ => true
  | .createTeamToken _ => true
  | .createTeamTokenWithOptions _ => true
  | .createUserToken _ => true
  | _ => false

/-- terraformToken from client.go: the value object for a minted token. -/
structure TerraformToken where
  id : String
  description : String
  token : String
  deriving DecidableEq, Repr

/-- Oracle for the remote client used by role writes and credential reads:
whether the client can be built from configuration, the result of the n-th
token-creation call (numbered across the execution under consideration),
the outcomes of read-verification calls, and the id assigned to the n-th
dynamically created team. -/
structure Remote where
  clientOk : Bool
  mint : Nat → Option TerraformToken
  readOrgOk : String → Bool
  readTeamOk : String → Bool
  newTeamID : Nat → String

/-- createOrgToken from the token helpers: read-verify the organization,
then create its organization token. -/
def createOrgToken (r : Remote) (n : Nat) (org : String) :
    List RemoteCall × Option TerraformToken × Nat :=
  if !r.readOrgOk org then ([.readOrganization org], none, n)
  else ([.readOrganization org, .createOrgToken org], r.mint n, n + 1)

/-- createTeamToken from the token helpers: read-verify the team, then
create its team token. -/
def createTeamToken (r : Remote) (n : Nat) (teamID : String) :
    List RemoteCall × Option TerraformToken × Nat :=
  if !r.readTeamOk teamID then ([.readTeam teamID], none, n)
  else ([.readTeam teamID, .createTeamToken teamID], r.mint n, n + 1)

/-- createUserToken from the token helpers: create a user token by user id
(the description only decorates the remote token). -/
def createUserToken (r : Remote) (n : Nat) (userID : String)
    (_descr : String) : List RemoteCall × Option TerraformToken × Nat :=
  ([.createUserToken userID], r.mint n, n + 1)

/-- Modelled from the spec: createTeamTokenWithOptions is called by the
multi-team-token credentials path but its definition is not among the
source files; per the spec, team (multi-token) roles mint a new remote
team token on every call, so it issues one token-creation call. -/
def createTeamTokenWithOptions (r : Remote) (n : Nat) (teamID : String) :
    List RemoteCall × Option TerraformToken × Nat :=
  ([.createTeamTokenWithOptions teamID], r.mint n, n + 1)

/-- isOrgToken from the token helpers: a role with an organization and no
team id produces organization tokens. -/
def isOrgToken (organization team : String) : Bool :=
  organization != "" && team == ""

/-- isTeamToken from the token helpers. -/
def isTeamToken (team : String) : Bool :=
  team != ""

/-- createToken from path_credentials.go: build the client, then dispatch
on the role identifiers to the kind-specific creation helper. -/
def createToken (r : Remote) (n : Nat) (e : RoleEntry) :
    List RemoteCall × Option TerraformToken × Nat :=
  if !r.clientOk then ([], none, n)
  else if isOrgToken e.organization e.teamID then createOrgToken r n e.organization
  else if isTeamToken e.teamID then
    (if e.multipleTeamTokens then createTeamTokenWithOptions r n e.teamID
     else createTeamToken r n e.teamID)
  else createUserToken r n e.userID e.description

/-- Value stored in a response data map. -/
inductive RespVal where
  | s (v : String)
  | i (v : Int)
  | b (v : Bool)
  deriving DecidableEq, Repr

/-- Response of a credentials read: either a plain data response, returned
for the cached singleton tokens, or a leased secret response carrying the
lease internal data and optional TTL overrides. -/
inductive CredsResponse where
  | plain (data : List (String × RespVal))
  | leased (data : List (String × RespVal))
           (internalData : List (String × RespVal))
           (ttl : Option Int) (maxTTL : Option Int)
  deriving DecidableEq, Repr

/-- Errors of the credentials read path. -/
inductive CredsError where
  | roleNil
  | tokenCreation
  deriving DecidableEq, Repr

/-- The leased secret response built by createUserCreds and
createMultiTeamCreds in path_credentials.go: token data, lease internal
data, and the role TTLs when positive. -/
def mintedLeasedResponse (role : RoleEntry) (token : TerraformToken) : CredsResponse :=
  .leased
    ([("token", .s token.token), ("token_id", .s token.id)] ++
     (if role.description ≠ "" then [("description", .s role.description)] else []))
    [("token_id", .s token.id), ("role", .s role.name)]
    (if role.ttl > 0 then some role.ttl else none)
    (if role.maxTTL > 0 then some role.maxTTL else none)

/-- createUserCreds from path_credentials.go: mint a token for the role and
wrap it in a leased secret response. -/
def createUserCreds (r : Remote) (n : Nat) (role : RoleEntry) :
    List RemoteCall × Except CredsError CredsResponse × Nat :=
  match createToken r n role with
  | (calls, none, m) => (calls, .error .tokenCreation, m)
  | (calls, some token, m) => (calls, .ok (mintedLeasedResponse role token), m)

/-- createMultiTeamCreds from path_credentials.go: multi-team tokens behave
like user tokens, minting on every read. -/
def createMultiTeamCreds (r : Remote) (n : Nat) (role : RoleEntry) :
    List RemoteCall × Except CredsError CredsResponse × Nat :=
  match createToken r n role with
  | (calls, none, m) => (calls, .error .tokenCreation, m)
  | (calls, some token, m) => (calls, .ok (mintedLeasedResponse role token), m)

/-- The plain (non-leased) data response pathCredentialsRead returns for
the cached singleton token of a role entry. -/
def cachedPlainResponse (roleEntry : RoleEntry) : CredsResponse :=
  .plain (
    [("token_id", .s roleEntry.tokenID), ("token", .s roleEntry.token),
     ("organization", .s roleEntry.organization),
     ("team_id", .s roleEntry.teamID), ("role", .s roleEntry.name)] ++
    (if roleEntry.description ≠ "" then
      [("description", .s roleEntry.description)] else []))

/-- pathCredentialsRead from path_credentials.go: user roles and multi-team
roles mint on every read; other roles return the token cached on the role
entry in a plain response, issuing no remote call. -/
def pathCredentialsRead (s : RoleStore) (name : String) (r : Remote) (n : Nat) :
    List RemoteCall × Except CredsError CredsResponse × Nat :=
  match getRole s name with
  | none => ([], .error .roleNil, n)
  | some roleEntry =>
    if roleEntry.userID ≠ "" then createUserCreds r n roleEntry
    else if roleEntry.teamID ≠ "" ∧ roleEntry.multipleTeamTokens = true then
      createMultiTeamCreds r n roleEntry
    else ([], .ok (cachedPlainResponse roleEntry), n)

/-- The leased secret response of the dynamic-team credentials path: token
data plus the ephemeral team id, embedded also in the lease internal data
for later cleanup. -/
def dynamicTeamLeasedResponse (role : RoleEntry) (teamID : String)
    (token : TerraformToken) : CredsResponse :=
  .leased
    [("token", .s token.token), ("token_id", .s token.id), ("team_id", .s teamID)]
    [("token_id", .s token.id), ("role", .s role.name),
     ("team_id", .s teamID), ("token_type", .s "dynamic_team")]
    (if role.ttl > 0 then some role.ttl else none)
    (if role.maxTTL > 0 then some role.maxTTL else none)

/-- Modelled from the spec: the dynamic-team credentials path is absent
from the source files (only its role-write validation and revoke sides are
present).  Per spec section 4.2, each read creates an ephemeral team in
the organization of the role and then mints that team a token, returning
a leased secret that embeds the team id for later cleanup. -/
def createDynamicTeamCreds (r : Remote) (n : Nat) (role : RoleEntry) :
    List RemoteCall × Except CredsError CredsResponse × Nat :=
  if !r.clientOk then ([], .error .tokenCreation, n)
  else
    let teamID := r.newTeamID n
    match r.mint n with
    | none => ([.createTeam role.organization, .createTeamTokenWithOptions teamID],
               .error .tokenCreation, n + 1)
    | some token =>
      ([.createTeam role.organization, .createTeamTokenWithOptions teamID],
       .ok (dynamicTeamLeasedResponse role teamID token), n + 1)

/-- Fields of a role-write request in the credential_type variant, with
GetOk semantics: some v when the field was supplied in the request body
(v possibly empty), none when absent. -/
structure RoleRequest where
  name : String
  credentialType : Option String
  organization : Option String
  userID : Option String
  teamID : Option String
  description : Option String
  ttl : Option Int
  maxTTL : Option Int
  deriving DecidableEq, Repr

/-- Validation messages of the role-write handlers, one constructor per
distinct ErrorResponse return in the sources. -/
inductive ValidationMsg where
  | missingRoleName
  | unrecognizedCredentialType (t : String)
  | userIdWithOrgOrTeam
  | missingIdentifier
  | ttlGreaterThanMaxTTL
  | legacyDisallowedFields
  | teamOptionsParseError
  | teamOptionsWithoutDynamicTeam
  | dynamicTeamConflict
  | dynamicTeamMissingFields
  | teamTokenConflict
  | teamTokenMissingFields
  | userTokenConflict
  | userTokenMissingUserId
  | orgTokenConflict
  | orgTokenMissingOrganization
  | missingOrganization
  deriving DecidableEq, Repr

/-- Fatal errors (the Go error return value) of the role-write handlers. -/
inductive WriteErr where
  | clientError
  | tokenCreation
  | testError
  deriving DecidableEq, Repr

/-- Result of a role-write handler: the validation response message if an
error response was returned, the Go error value, the resulting role
storage, the remote calls issued, and the next mint index. -/
structure WriteResult where
  respErr : Option ValidationMsg
  err : Option WriteErr
  store : RoleStore
  calls : List RemoteCall
  nextMint : Nat
  deriving DecidableEq, Repr

/-- A write outcome that was rejected by validation as a non-fatal error
response, left storage untouched and issued no remote call. -/
def WriteResult.rejectedNoOp (res : WriteResult) (s : RoleStore) : Prop :=
  res.respErr.isSome ∧ res.err = none ∧ res.store = s ∧ res.calls = []

/-- Whether a credential_type string is one of the recognized values
(credentialType_Values in the source). -/
def validCredentialType (ct : String) : Bool :=
  ct == "user" || ct == "organization" || ct == "team_legacy" || ct == "team"

/-- Credential-type resolution of pathRolesWrite in the credential_type
role-store variant, following the order of the GetOk blocks: an explicit
credential_type wins; otherwise a supplied organization sets organization
kind if still unset, then a supplied user id sets user kind if still
unset, then a supplied team id sets team_legacy kind if unset or already
team_legacy. -/
def resolveCredentialTypeCt (base : RoleEntry) (req : RoleRequest) : String :=
  let ct := req.credentialType.getD base.credentialType
  let ct := if req.organization.isSome ∧ ct = "" then "organization" else ct
  let ct := if req.userID.isSome ∧ ct = "" then "user" else ct
  if req.teamID.isSome ∧ (ct = "" ∨ ct = "team_legacy") then "team_legacy" else ct

/-- Field-merge stage of pathRolesWrite in the credential_type role-store
variant: each supplied field overrides the stored one (an absent field
keeps the stored value), and the credential type is resolved from the
supplied identifiers. -/
def mergeRoleRequestCt (old : Option RoleEntry) (req : RoleRequest) : RoleEntry :=
  let base := old.getD RoleEntry.blank
  { base with
    name := req.name,
    credentialType := resolveCredentialTypeCt base req,
    organization := req.organization.getD base.organization,
    userID := req.userID.getD base.userID,
    teamID := req.teamID.getD base.teamID,
    description := req.description.getD base.description,
    ttl := req.ttl.getD base.ttl,
    maxTTL := req.maxTTL.getD base.maxTTL }

/-- Validation and commit stage of pathRolesWrite in the credential_type
role-store variant, applied to the merged entry: the if-else chain of the
early returns after the field merge.  The legacy-team validation returns
its error response together with the leftover fmt.Errorf test error,
modelled by the testError value in the err component. -/
def pathRolesWriteCtValidated (s : RoleStore) (name : String)
    (reqCt : Option String) (e : RoleEntry) (r : Remote) (n : Nat) :
    WriteResult :=
  if (match reqCt with
      | some ct => !validCredentialType ct
      | none => false) = true then
    ⟨some (.unrecognizedCredentialType (reqCt.getD "")), none, s, [], n⟩
  else if e.userID ≠ "" ∧ (e.organization ≠ "" ∨ e.teamID ≠ "") then
    ⟨some .userIdWithOrgOrTeam, none, s, [], n⟩
  else if e.userID = "" ∧ e.organization = "" ∧ e.teamID = "" then
    ⟨some .missingIdentifier, none, s, [], n⟩
  else if e.maxTTL ≠ 0 ∧ e.ttl > e.maxTTL then
    ⟨some .ttlGreaterThanMaxTTL, none, s, [], n⟩
  else if e.credentialType = "team_legacy" ∧
          (e.description ≠ "" ∨ e.ttl ≠ 0 ∨ e.maxTTL ≠ 0) then
    ⟨some .legacyDisallowedFields, some .testError, s, [], n⟩
  else if e.credentialType = "organization" ∨ e.credentialType = "team_legacy" then
    match createToken r n e with
    | (calls, none, m) => ⟨none, some .tokenCreation, s, calls, m⟩
    | (calls, some token, m) =>
      ⟨none, none,
       setRole s name { e with token := token.token, tokenID := token.id },
       calls, m⟩
  else ⟨none, none, setRole s name e, [], n⟩

/-- pathRolesWrite in the credential_type role-store variant: name check,
field merge, then validation and commit. -/
def pathRolesWriteCt (s : RoleStore) (req : RoleRequest) (r : Remote) (n : Nat) :
    WriteResult :=
  if req.name = "" then ⟨some .missingRoleName, none, s, [], n⟩
  else
    pathRolesWriteCtValidated s req.name req.credentialType
      (mergeRoleRequestCt (getRole s req.name) req) r n

/-- team_options request field: supplied-empty clears the options,
supplied-invalid fails JSON parsing, supplied-valid parses. -/
inductive TeamOptsInput where
  | emptyStr
  | invalid
  | valid (v : TeamOptions)
  deriving DecidableEq, Repr

/-- Request operation, distinguishing create from update. -/
inductive Operation where
  | create
  | update
  deriving DecidableEq, Repr

/-- Role-write request fields for the token_type role-store variant. -/
structure RoleRequestTt where
  name : String
  tokenType : Option String
  organization : Option String
  teamID : Option String
  userID : Option String
  teamOptions : Option TeamOptsInput
  ttl : Option Int
  maxTTL : Option Int
  deriving DecidableEq, Repr

/-- Field merge with GetOk and request-default semantics: a supplied value
wins; an absent field takes the schema default on create and keeps the
stored value on update. -/
def mergeField {α : Type} (op : Operation) (supplied : Option α)
    (dflt : α) (old : α) : α :=
  match supplied with
  | some v => v
  | none =>
    match op with
    | .create => dflt
    | .update => old

/-- Token-type merge of pathRolesWrite in the token_type role-store
variant: an absent token_type is cleared for re-inference, except that on
update a stored dynamic_team type is kept. -/
def resolveTokenTypeTt (op : Operation) (base : RoleEntry)
    (req : RoleRequestTt) : String :=
  match req.tokenType with
  | some tt => tt
  | none =>
    match op with
    | .create => ""
    | .update => if base.tokenType ≠ "dynamic_team" then "" else base.tokenType

/-- Field-merge stage of pathRolesWrite in the token_type role-store
variant. -/
def mergeRoleRequestTt (op : Operation) (old : Option RoleEntry)
    (req : RoleRequestTt) : RoleEntry :=
  let base := old.getD RoleEntry.blank
  { base with
    name := req.name,
    tokenType := resolveTokenTypeTt op base req,
    organization := mergeField op req.organization "" base.organization,
    teamID := mergeField op req.teamID "" base.teamID,
    userID := mergeField op req.userID "" base.userID,
    teamOptions := (match req.teamOptions with
      | some .emptyStr => none
      | some (.valid v) => some v
      | _ => base.teamOptions),
    ttl := mergeField op req.ttl 0 base.ttl,
    maxTTL := mergeField op req.maxTTL 0 base.maxTTL }

/-- Validation and commit stage of pathRolesWrite in the token_type
role-store variant, applied to the merged entry: ttl validation, client
construction, then per-token-type validation with write-time minting for
team and organization kinds, inferring the token type in the default
branch. -/
def pathRolesWriteTtValidated (s : RoleStore) (name : String) (e : RoleEntry)
    (r : Remote) (n : Nat) : WriteResult :=
    if e.maxTTL ≠ 0 ∧ e.ttl > e.maxTTL then
      ⟨some .ttlGreaterThanMaxTTL, none, s, [], n⟩
    else if !r.clientOk then ⟨none, some .clientError, s, [], n⟩
    else if e.tokenType = "dynamic_team" then
      if e.userID ≠ "" ∨ e.teamID ≠ "" then ⟨some .dynamicTeamConflict, none, s, [], n⟩
      else if e.organization = "" ∨ e.teamOptions = none then
        ⟨some .dynamicTeamMissingFields, none, s, [], n⟩
      else ⟨none, none, setRole s name e, [], n⟩
    else if e.tokenType = "team" then
      if e.userID ≠ "" ∨ e.teamOptions ≠ none then
        ⟨some .teamTokenConflict, none, s, [], n⟩
      else if e.organization = "" ∨ e.teamID = "" then
        ⟨some .teamTokenMissingFields, none, s, [], n⟩
      else
        match createTeamToken r n e.teamID with
        | (calls, none, m) => ⟨none, some .tokenCreation, s, calls, m⟩
        | (calls, some token, m) =>
          ⟨none, none,
           setRole s name { e with token := token.token, tokenID := token.id },
           calls, m⟩
    else if e.tokenType = "user" then
      if e.organization ≠ "" ∨ e.teamID ≠ "" ∨ e.teamOptions ≠ none then
        ⟨some .userTokenConflict, none, s, [], n⟩
      else if e.userID = "" then ⟨some .userTokenMissingUserId, none, s, [], n⟩
      else ⟨none, none, setRole s name e, [], n⟩
    else if e.tokenType = "organization" then
      if e.userID ≠ "" ∨ e.teamID ≠ "" ∨ e.teamOptions ≠ none then
        ⟨some .orgTokenConflict, none, s, [], n⟩
      else if e.organization = "" then
        ⟨some .orgTokenMissingOrganization, none, s, [], n⟩
      else
        match createOrgToken r n e.organization with
        | (calls, none, m) => ⟨none, some .tokenCreation, s, calls, m⟩
        | (calls, some token, m) =>
          ⟨none, none,
           setRole s name { e with token := token.token, tokenID := token.id },
           calls, m⟩
    else
      if e.teamOptions ≠ none then
        ⟨some .teamOptionsWithoutDynamicTeam, none, s, [], n⟩
      else if e.userID ≠ "" ∧ (e.organization ≠ "" ∨ e.teamID ≠ "") then
        ⟨some .userIdWithOrgOrTeam, none, s, [], n⟩
      else if e.userID = "" ∧ e.organization = "" ∧ e.teamID = "" then
        ⟨some .missingIdentifier, none, s, [], n⟩
      else if e.teamID ≠ "" then
        match createTeamToken r n e.teamID with
        | (calls, none, m) => ⟨none, some .tokenCreation, s, calls, m⟩
        | (calls, some token, m) =>
          ⟨none, none,
           setRole s name
             { e with tokenType := "team", token := token.token, tokenID := token.id },
           calls, m⟩
      else if e.organization ≠ "" then
        match createOrgToken r n e.organization with
        | (calls, none, m) => ⟨none, some .tokenCreation, s, calls, m⟩
        | (calls, some token, m) =>
          ⟨none, none,
           setRole s name
             { e with tokenType := "organization",
                      token := token.token, tokenID := token.id },
           calls, m⟩
      else ⟨none, none, setRole s name { e with tokenType := "user" }, [], n⟩

/-- pathRolesWrite in the token_type role-store variant: name check,
team_options parse check, field merge, then validation and commit. -/
def pathRolesWriteTt (s : RoleStore) (op : Operation) (req : RoleRequestTt)
    (r : Remote) (n : Nat) : WriteResult :=
  if req.name = "" then ⟨some .missingRoleName, none, s, [], n⟩
  else if req.teamOptions = some .invalid then
    ⟨some .teamOptionsParseError, none, s, [], n⟩
  else
    pathRolesWriteTtValidated s req.name
      (mergeRoleRequestTt op (getRole s req.name) req) r n

/-- Role-write request fields for the early organization/team variant. -/
structure RoleRequestOld where
  name : String
  organization : Option String
  teamID : Option String
  ttl : Option Int
  maxTTL : Option Int
  deriving DecidableEq, Repr

/-- Field-merge stage of pathRolesWrite in the early organization/team
role-store variant. -/
def mergeRoleRequestOld (op : Operation) (old : Option RoleEntry)
    (req : RoleRequestOld) : RoleEntry :=
  let base := old.getD RoleEntry.blank
  { base with
    name := req.name,
    organization := req.organization.getD base.organization,
    teamID := req.teamID.getD "",
    ttl := mergeField op req.ttl 0 base.ttl,
    maxTTL := mergeField op req.maxTTL 0 base.maxTTL }

/-- Validation and commit stage of pathRolesWrite in the early
organization/team role-store variant: the ttl bound is validated before
the merged entry is stored, and nothing is minted at write time. -/
def pathRolesWriteOldValidated (s : RoleStore) (name : String) (e : RoleEntry) :
    WriteResult :=
  if e.maxTTL ≠ 0 ∧ e.ttl > e.maxTTL then
    ⟨some .ttlGreaterThanMaxTTL, none, s, [], 0⟩
  else ⟨none, none, setRole s name e, [], 0⟩

/-- pathRolesWrite in the early organization/team role-store variant: name
check, required-organization check on create, field merge, then validation
and commit. -/
def pathRolesWriteOld (s : RoleStore) (op : Operation) (req : RoleRequestOld) :
    WriteResult :=
  if req.name = "" then ⟨some .missingRoleName, none, s, [], 0⟩
  else if req.organization = none ∧ op = .create then
    ⟨some .missingOrganization, none, s, [], 0⟩
  else
    pathRolesWriteOldValidated s req.name
      (mergeRoleRequestOld op (getRole s req.name) req)

/-- A lease as seen by the renew callback: the role name stored in the
secret internal data, and the current lease TTL values. -/
structure SecretLease where
  internalRole : Option String
  ttl : Int
  maxTTL : Int
  deriving DecidableEq, Repr

/-- Errors of the renew callbacks. -/
inductive RenewErr where
  | missingInternalRole
  | missingRoleName
  | roleNil
  deriving DecidableEq, Repr

/-- terraformTokenRenew, current variant: look up the current role entry by
the name in internal data; a deleted role is an error; a positive role ttl
replaces the lease ttl and a positive role max ttl replaces the lease max
ttl. -/
def terraformTokenRenew (s : RoleStore) (lease : SecretLease) :
    Except RenewErr SecretLease :=
  match lease.internalRole with
  | none => .error .missingInternalRole
  | some role =>
    if role = "" then .error .missingRoleName
    else
      match getRole s role with
      | none => .error .roleNil
      | some roleEntry =>
        let l := if roleEntry.ttl > 0 then { lease with ttl := roleEntry.ttl } else lease
        if roleEntry.maxTTL > 0 then .ok { l with maxTTL := roleEntry.maxTTL } else .ok l

/-- terraformTokenRenew, earlier variant (the backend.go pairing): same
shape, but the branch guarded by a positive role ttl assigns the role max
ttl to the lease ttl. -/
def terraformTokenRenewLegacy (s : RoleStore) (lease : SecretLease) :
    Except RenewErr SecretLease :=
  match lease.internalRole with
  | none => .error .missingInternalRole
  | some role =>
    if role = "" then .error .missingRoleName
    else
      match getRole s role with
      | none => .error .roleNil
      | some cred =>
        let l := if cred.ttl > 0 then { lease with ttl := cred.maxTTL } else lease
        if cred.maxTTL > 0 then .ok { l with maxTTL := cred.maxTTL } else .ok l

/-- Internal data of a lease as read by the revoke callback. -/
structure LeaseInternal where
  tokenType : Option String
  organization : Option String
  teamID : Option String
  tokenID : Option String
  deriving DecidableEq, Repr

/-- Outcome of a remote delete call. -/
inductive RemoteDeleteResult where
  | ok
  | notFound
  | otherError
  deriving DecidableEq, Repr

/-- Oracle for the remote deletes available to the revoke callback. -/
structure RevokeRemote where
  clientOk : Bool
  deleteOrgToken : String → RemoteDeleteResult
  deleteTeam : String → RemoteDeleteResult
  deleteTeamToken : String → RemoteDeleteResult
  deleteUserToken : String → RemoteDeleteResult

/-- Errors of the revoke callback, one constructor per return site. -/
inductive RevokeErr where
  | clientError
  | invalidTokenType
  | invalidOrganization
  | invalidTeamID
  | invalidTokenID
  | revokeOrgFailed (e : RemoteDeleteResult)
  | deleteTeamFailed (e : RemoteDeleteResult)
  | revokeTeamFailed (e : RemoteDeleteResult)
  | revokeUserFailed (e : RemoteDeleteResult)
  deriving DecidableEq, Repr

/-- terraformTokenRevoke, token_type variant: dispatch on the token_type in
the lease internal data and delete the corresponding remote resource.  Any
delete failure, a remote not-found included, is returned as an error. -/
def terraformTokenRevoke (d : LeaseInternal) (r : RevokeRemote) :
    Except RevokeErr Unit :=
  if !r.clientOk then .error .clientError
  else if d.tokenType = some "" then .error .invalidTokenType
  else
    match d.tokenType.getD "" with
    | "organization" =>
      if d.organization = some "" then .error .invalidOrganization
      else
        match r.deleteOrgToken (d.organization.getD "") with
        | .ok => .ok ()
        | e => .error (.revokeOrgFailed e)
    | "dynamic_team" =>
      if d.teamID = some "" then .error .invalidTeamID
      else
        match r.deleteTeam (d.teamID.getD "") with
        | .ok => .ok ()
        | e => .error (.deleteTeamFailed e)
    | "team" =>
      if d.teamID = some "" then .error .invalidTeamID
      else
        match r.deleteTeamToken (d.teamID.getD "") with
        | .ok => .ok ()
        | e => .error (.revokeTeamFailed e)
    | _ =>
      if d.tokenID = some "" then .error .invalidTokenID
      else
        match r.deleteUserToken (d.tokenID.getD "") with
        | .ok => .ok ()
        | e => .error (.revokeUserFailed e)

/-- shouldRegisterRotationJob, from the automated-rotation parameters of
the host sdk (external collaborator): a rotation job is registered when
automated rotation is not disabled and a schedule or period is set.  Its
value depends only on the rotation-policy fields. -/
def shouldRegisterRotationJob (c : TfConfig) : Bool :=
  !c.disableAutomatedRotation && (c.rotationSchedule != "" || c.rotationPeriod != 0)

/-- populateAutomatedRotationData from the host sdk: the rotation-policy
fields added to a response map. -/
def populateAutomatedRotationData (c : TfConfig) : List (String × RespVal) :=
  [("rotation_schedule", .s c.rotationSchedule),
   ("rotation_window", .i c.rotationWindow),
   ("rotation_period", .i c.rotationPeriod),
   ("disable_automated_rotation", .b c.disableAutomatedRotation)]

/-- pathConfigRead from path_config.go: a read of the config path returns
address and base path, plus the rotation-policy fields and the
rotation-identity fields token_type, id and old_token when a rotation job
is registered; none when no config exists.  Neither the token nor the
token id is placed in the response. -/
def pathConfigRead (storage : Option TfConfig) : Option (List (String × RespVal)) :=
  match storage with
  | none => none
  | some config =>
    some ([("address", .s config.address), ("base_path", .s config.basePath)] ++
      (if shouldRegisterRotationJob config then
        populateAutomatedRotationData config ++
          [("token_type", .s config.tokenType), ("id", .s config.id),
           ("old_token", .s config.oldToken)]
       else []))

/-- Concrete remote oracle used by witnesses: every call succeeds and the
n-th minted token is distinct per index. -/
def remoteExample : Remote :=
  ⟨true, fun n => some ⟨"at-" ++ toString n, "", "sek-" ++ toString n⟩,
   fun _ => true, fun _ => true, fun n => "team-" ++ toString n⟩

end TfPlugin

namespace TfPlugin

/-- C1: on the config/rotate endpoint, the remote deletion of the superseded
management token is only ever issued after the newly minted token has been
successfully persisted to the configuration storage entry: every execution
whose event trace contains a deleteOld event has a successful mint and a
successful storage put of the new token strictly before the deleteOld
event, and final storage holds the new token, never only the old one. -/
theorem rotate_persists_before_delete (cfg : TfConfig) (o : RotOutcome)
    (tr : List RotEvent) (res : Except RotError Unit) (st : Option TfConfig)
    (tid : String)
    (h : rotateRootToken (some cfg) o = (tr, res, st))
    (hdel : RotEvent.deleteOld tid ∈ tr) :
    o.mintResult.isSome ∧ o.putOk = true ∧
    tr = [.mint cfg.tokenType cfg.id,
          .putConfig { cfg with token := (o.mintResult.getD ("", "")).1,
                                tokenID := (o.mintResult.getD ("", "")).2 },
          .deleteOld cfg.tokenID] ∧
    st = some { cfg with token := (o.mintResult.getD ("", "")).1,
                         tokenID := (o.mintResult.getD ("", "")).2 } := by
  rw [show rotateRootToken (some cfg) o = rotateRootTokenWithConfig cfg o from rfl] at h
  unfold rotateRootTokenWithConfig at h
  repeat' split at h
  all_goals
    injection h with h1 h2
  all_goals
    injection h2 with h2a h2b
  all_goals subst h1
  all_goals subst h2b
  all_goals first
    | (rename_i newToken newID hmint hput hcond hdOk
       exact ⟨by simp [hmint], by simpa using hput, by simp [hmint], by simp [hmint]⟩)
    | (exfalso; simp at hdel)

/-- Inversion helper: the saveAfterRotation error is produced only on the
path where the remote mint succeeded and the storage put then failed, and
on that path the stored configuration is left untouched. -/
theorem rotate_save_error_inv (cfg : TfConfig) (o : RotOutcome)
    (tr : List RotEvent) (res : Except RotError Unit) (st : Option TfConfig)
    (h : rotateRootToken (some cfg) o = (tr, res, st))
    (hres : res = .error .saveAfterRotation) :
    st = some cfg ∧ o.putOk = false ∧ o.mintResult.isSome := by
  rw [show rotateRootToken (some cfg) o = rotateRootTokenWithConfig cfg o from rfl] at h
  unfold rotateRootTokenWithConfig at h
  repeat' split at h
  all_goals
    injection h with h1 h2
  all_goals
    injection h2 with h2a h2b
  all_goals subst h2a
  all_goals subst h2b
  all_goals simp_all

/-- C2: if, during config/rotate, persisting the new configuration fails
after the new remote token was successfully minted, the operation returns
the dedicated saveAfterRotation error (the distinct "error saving new
config after rotation" message, raised nowhere else), and the
configuration entry in storage still holds the pre-rotation token value:
no partial overwrite occurs on this error path. -/
theorem rotate_save_failure_distinguished (cfg : TfConfig) (o : RotOutcome)
    (hty : cfg.tokenType = "organization" ∨ cfg.tokenType = "team" ∨
           cfg.tokenType = "user")
    (hid : cfg.id ≠ "") (htid : cfg.tokenID ≠ "")
    (hclient : o.clientOk = true)
    (nt ni : String) (hmint : o.mintResult = some (nt, ni))
    (hput : o.putOk = false) :
    (rotateRootToken (some cfg) o).2.1 = .error .saveAfterRotation ∧
    (rotateRootToken (some cfg) o).2.2 = some cfg ∧
    (∀ cfg₂ o₂ tr₂ res₂ st₂, rotateRootToken (some cfg₂) o₂ = (tr₂, res₂, st₂) →
       res₂ = .error .saveAfterRotation →
       st₂ = some cfg₂ ∧ o₂.putOk = false ∧ o₂.mintResult.isSome) := by
  refine ⟨?_, ?_, fun cfg₂ o₂ tr₂ res₂ st₂ h₂ hres₂ =>
    rotate_save_error_inv cfg₂ o₂ tr₂ res₂ st₂ h₂ hres₂⟩ <;>
  · rw [show rotateRootToken (some cfg) o = rotateRootTokenWithConfig cfg o from rfl]
    unfold rotateRootTokenWithConfig
    rcases hty with h | h | h <;>
      simp [hclient, h, hid, htid, hmint, hput]

/-- Witness for rotate_save_failure_distinguished at a concrete team-token
configuration with a failing storage put. -/
theorem rotate_save_failure_distinguished_witness :
    (rotateRootToken (some rotateCfgExample) rotateOutPutFail).2.1
      = .error .saveAfterRotation ∧
    (rotateRootToken (some rotateCfgExample) rotateOutPutFail).2.2
      = some rotateCfgExample ∧
    ((rotateRootToken (some rotateCfgExample) rotateOutPutFail).2.2
        = some rotateCfgExample ∧
      rotateOutPutFail.putOk = false ∧ rotateOutPutFail.mintResult.isSome) :=
  have h := rotate_save_failure_distinguished rotateCfgExample rotateOutPutFail
    (by decide) (by decide) (by decide) rfl "tok-new" "at-new" rfl rfl
  ⟨h.1, h.2.1, h.2.2 rotateCfgExample rotateOutPutFail _ _ _ rfl rfl⟩

/-- Witness for rotate_persists_before_delete at a concrete team-token
configuration whose old-token disposition is delete. -/
theorem rotate_persists_before_delete_witness :
    rotateOutExample.mintResult.isSome ∧
    rotateOutExample.putOk = true ∧
    (rotateRootToken (some rotateCfgExample) rotateOutExample).1
      = [.mint rotateCfgExample.tokenType rotateCfgExample.id,
         .putConfig { rotateCfgExample with
            token := (rotateOutExample.mintResult.getD ("", "")).1,
            tokenID := (rotateOutExample.mintResult.getD ("", "")).2 },
         .deleteOld rotateCfgExample.tokenID] ∧
    (rotateRootToken (some rotateCfgExample) rotateOutExample).2.2
      = some { rotateCfgExample with
          token := (rotateOutExample.mintResult.getD ("", "")).1,
          tokenID := (rotateOutExample.mintResult.getD ("", "")).2 } :=
  rotate_persists_before_delete rotateCfgExample rotateOutExample
    (rotateRootToken (some rotateCfgExample) rotateOutExample).1
    (rotateRootToken (some rotateCfgExample) rotateOutExample).2.1
    (rotateRootToken (some rotateCfgExample) rotateOutExample).2.2
    "at-old" rfl (by decide)

/-- Storing a role and reading it back by the same name yields the stored
entry. -/
theorem getRole_setRole (s : RoleStore) (name : String) (e : RoleEntry) :
    getRole (setRole s name e) name = some e := by
  simp [getRole, setRole]

/-- C10: reading the config path never reveals the management token.  Two
stored configurations that differ only in their token value and token id
produce identical read responses, and the keys of the response are exactly
address and base_path plus, when a rotation job is registered, the
rotation-policy fields and token_type, id and old_token; no key carries
the token. -/
theorem config_read_hides_token (c : TfConfig) (t i : String) :
    pathConfigRead (some { c with token := t, tokenID := i })
      = pathConfigRead (some c) ∧
    (pathConfigRead (some c)).map (fun l => l.map Prod.fst)
      = some (if shouldRegisterRotationJob c then
          ["address", "base_path", "rotation_schedule", "rotation_window",
           "rotation_period", "disable_automated_rotation", "token_type", "id",
           "old_token"]
        else ["address", "base_path"]) := by
  refine ⟨rfl, ?_⟩
  simp only [pathConfigRead, populateAutomatedRotationData, Option.map_some]
  split <;> simp

/-- C5 counterexample: revoking a user-token lease whose remote token was
already deleted (the remote delete reports not-found) fails the revoke
operation instead of being treated as success. -/
theorem revoke_notFound_fails_counterexample :
    terraformTokenRevoke
        ⟨some "user", none, none, some "at-1"⟩
        ⟨true, fun _ => .ok, fun _ => .ok, fun _ => .ok, fun _ => .notFound⟩
      = .error (.revokeUserFailed .notFound) := rfl

/-- C5 amended: for every token kind, a remote not-found during the revoke
delete is surfaced as a revoke error (wrapped with the kind context), so a
second revoke of an already-revoked lease fails rather than succeeding. -/
theorem revoke_notFound_surfaced (d : LeaseInternal) (r : RevokeRemote)
    (hc : r.clientOk = true) :
    (d.tokenType = some "organization" → d.organization ≠ some "" →
      r.deleteOrgToken (d.organization.getD "") = .notFound →
      terraformTokenRevoke d r = .error (.revokeOrgFailed .notFound)) ∧
    (d.tokenType = some "dynamic_team" → d.teamID ≠ some "" →
      r.deleteTeam (d.teamID.getD "") = .notFound →
      terraformTokenRevoke d r = .error (.deleteTeamFailed .notFound)) ∧
    (d.tokenType = some "team" → d.teamID ≠ some "" →
      r.deleteTeamToken (d.teamID.getD "") = .notFound →
      terraformTokenRevoke d r = .error (.revokeTeamFailed .notFound)) ∧
    (d.tokenType = some "user" → d.tokenID ≠ some "" →
      r.deleteUserToken (d.tokenID.getD "") = .notFound →
      terraformTokenRevoke d r = .error (.revokeUserFailed .notFound)) := by
  refine ⟨?_, ?_, ?_, ?_⟩ <;>
  · intro h1 h2 h3
    simp [terraformTokenRevoke, hc, h1, h2, h3]

/-- Witness for revoke_notFound_surfaced at a concrete organization-token
lease whose remote token is already gone. -/
theorem revoke_notFound_surfaced_witness :
    terraformTokenRevoke
        ⟨some "organization", some "acme", none, none⟩
        ⟨true, fun _ => .notFound, fun _ => .ok, fun _ => .ok, fun _ => .ok⟩
      = .error (.revokeOrgFailed .notFound) :=
  (revoke_notFound_surfaced
      ⟨some "organization", some "acme", none, none⟩
      ⟨true, fun _ => .notFound, fun _ => .ok, fun _ => .ok, fun _ => .ok⟩
      rfl).1 rfl (by simp) rfl

/-- C6: divergence of the two renew variants at a role with ttl 60 and max
ttl 3600.  The current variant refreshes the lease ttl from the role ttl
(60) and the max ttl from the role max ttl (3600), as the claim states;
the earlier backend.go variant assigns the role max ttl to the lease ttl
under the positive-ttl guard, returning lease ttl 3600.  Both variants
fail when the role was deleted. -/
theorem renew_ttl_assignment_divergence :
    terraformTokenRenew
        [("r1", { RoleEntry.blank with name := "r1", ttl := 60, maxTTL := 3600 })]
        ⟨some "r1", 0, 0⟩ = .ok ⟨some "r1", 60, 3600⟩ ∧
    terraformTokenRenewLegacy
        [("r1", { RoleEntry.blank with name := "r1", ttl := 60, maxTTL := 3600 })]
        ⟨some "r1", 0, 0⟩ = .ok ⟨some "r1", 3600, 3600⟩ ∧
    terraformTokenRenew [] ⟨some "r1", 0, 0⟩ = .error .roleNil ∧
    terraformTokenRenewLegacy [] ⟨some "r1", 0, 0⟩ = .error .roleNil :=
  ⟨rfl, rfl, rfl, rfl⟩

/-- C8: a role-write producing the legacy-team kind with a description
aborts before minting or persisting anything and returns the legacy
validation error response, but the handler also returns the leftover
non-nil test error alongside it, which the host treats as a fatal failure
rather than a plain validation response. -/
theorem legacy_role_write_fatal_test_error :
    pathRolesWriteCt []
        ⟨"r1", none, none, none, some "team-1", some "d", none, none⟩
        remoteExample 0
      = ⟨some .legacyDisallowedFields, some .testError, [], [], 0⟩ := rfl

/-- Inversion of a successful createToken call: exactly one token-creation
call is issued, the mint counter advances by one, and the returned token
is the minted one. -/
theorem createToken_ok_inv (r : Remote) (n : Nat) (e : RoleEntry)
    (calls : List RemoteCall) (tok : TerraformToken) (m : Nat)
    (h : createToken r n e = (calls, some tok, m)) :
    (calls.filter (fun c => c.isTokenCreation)).length = 1 ∧
    m = n + 1 ∧ r.mint n = some tok := by
  unfold createToken createOrgToken createTeamToken
    createTeamTokenWithOptions createUserToken at h
  repeat' split at h
  all_goals
    injection h with h1 h2
  all_goals
    injection h2 with h2a h2b
  all_goals first
    | exact absurd h2a (by simp)
    | (subst h1; subst h2b
       exact ⟨by simp [List.filter, RemoteCall.isTokenCreation], rfl, h2a⟩)

/-- A credentials read of a role entry that is neither a user role nor a
multi-team role returns the cached token in a plain response, issues no
remote call and leaves the mint counter unchanged. -/
theorem pathCredentialsRead_cached (s : RoleStore) (name : String)
    (rr : Remote) (m : Nat) (e : RoleEntry) (hge : getRole s name = some e)
    (hu : e.userID = "") (hmulti : e.multipleTeamTokens = false) :
    pathCredentialsRead s name rr m = ([], .ok (cachedPlainResponse e), m) := by
  simp [pathCredentialsRead, hge, hu, hmulti]

/-- The credential_type validation stage rejects without side effects when
the merged entry carries a user id together with an organization or team
id. -/
theorem writeCtValidated_conflict_rejected (s : RoleStore) (name : String)
    (reqCt : Option String) (e : RoleEntry) (r : Remote) (n : Nat)
    (hu : e.userID ≠ "") (hot : e.organization ≠ "" ∨ e.teamID ≠ "") :
    (pathRolesWriteCtValidated s name reqCt e r n).rejectedNoOp s := by
  unfold pathRolesWriteCtValidated
  by_cases h0 : (match reqCt with
      | some ct => !validCredentialType ct
      | none => false) = true
  · rw [if_pos h0]
    exact ⟨rfl, rfl, rfl, rfl⟩
  · rw [if_neg h0, if_pos ⟨hu, hot⟩]
    exact ⟨rfl, rfl, rfl, rfl⟩

/-- The credential_type validation stage rejects without side effects when
the merged entry has a nonzero max ttl smaller than its ttl. -/
theorem writeCtValidated_ttl_rejected (s : RoleStore) (name : String)
    (reqCt : Option String) (e : RoleEntry) (r : Remote) (n : Nat)
    (hcond : e.maxTTL ≠ 0 ∧ e.ttl > e.maxTTL) :
    (pathRolesWriteCtValidated s name reqCt e r n).rejectedNoOp s := by
  unfold pathRolesWriteCtValidated
  by_cases h0 : (match reqCt with
      | some ct => !validCredentialType ct
      | none => false) = true
  · rw [if_pos h0]
    exact ⟨rfl, rfl, rfl, rfl⟩
  rw [if_neg h0]
  by_cases h1 : e.userID ≠ "" ∧ (e.organization ≠ "" ∨ e.teamID ≠ "")
  · rw [if_pos h1]
    exact ⟨rfl, rfl, rfl, rfl⟩
  rw [if_neg h1]
  by_cases h2 : e.userID = "" ∧ e.organization = "" ∧ e.teamID = ""
  · rw [if_pos h2]
    exact ⟨rfl, rfl, rfl, rfl⟩
  rw [if_neg h2, if_pos hcond]
  exact ⟨rfl, rfl, rfl, rfl⟩

/-- The token_type validation stage rejects without side effects when the
merged entry has a nonzero max ttl smaller than its ttl. -/
theorem writeTtValidated_ttl_rejected (s : RoleStore) (name : String)
    (e : RoleEntry) (r : Remote) (n : Nat)
    (hcond : e.maxTTL ≠ 0 ∧ e.ttl > e.maxTTL) :
    (pathRolesWriteTtValidated s name e r n).rejectedNoOp s := by
  unfold pathRolesWriteTtValidated
  rw [if_pos hcond]
  exact ⟨rfl, rfl, rfl, rfl⟩

/-- The token_type validation stage rejects without side effects when the
merged entry carries a user id together with an organization or team id,
whatever its token type resolves to. -/
theorem writeTtValidated_conflict_rejected (s : RoleStore) (name : String)
    (e : RoleEntry) (r : Remote) (n : Nat)
    (hu : e.userID ≠ "") (hot : e.organization ≠ "" ∨ e.teamID ≠ "")
    (hcl : r.clientOk = true) :
    (pathRolesWriteTtValidated s name e r n).rejectedNoOp s := by
  unfold pathRolesWriteTtValidated
  by_cases httl : e.maxTTL ≠ 0 ∧ e.ttl > e.maxTTL
  · rw [if_pos httl]
    exact ⟨rfl, rfl, rfl, rfl⟩
  rw [if_neg httl, if_neg (show ¬((!r.clientOk) = true) by simp [hcl])]
  by_cases hdy : e.tokenType = "dynamic_team"
  · rw [if_pos hdy, if_pos (Or.inl hu)]
    exact ⟨rfl, rfl, rfl, rfl⟩
  rw [if_neg hdy]
  by_cases htm : e.tokenType = "team"
  · rw [if_pos htm, if_pos (Or.inl hu)]
    exact ⟨rfl, rfl, rfl, rfl⟩
  rw [if_neg htm]
  by_cases hus : e.tokenType = "user"
  · rw [if_pos hus]
    rcases hot with h | h
    · rw [if_pos (Or.inl h)]
      exact ⟨rfl, rfl, rfl, rfl⟩
    · rw [if_pos (Or.inr (Or.inl h))]
      exact ⟨rfl, rfl, rfl, rfl⟩
  rw [if_neg hus]
  by_cases hog : e.tokenType = "organization"
  · rw [if_pos hog, if_pos (Or.inl hu)]
    exact ⟨rfl, rfl, rfl, rfl⟩
  rw [if_neg hog]
  by_cases hto : e.teamOptions ≠ none
  · rw [if_pos hto]
    exact ⟨rfl, rfl, rfl, rfl⟩
  rw [if_neg hto, if_pos ⟨hu, hot⟩]
  exact ⟨rfl, rfl, rfl, rfl⟩

/-- C9: a role-write whose resulting entry has positive ttl and max ttl
with ttl strictly greater than max ttl is rejected with a validation error
response by all three role-write variants, without storing the entry and
without any remote call. -/
theorem role_write_ttl_gt_maxttl_rejected
    (t m : Int) (hm : 0 < m) (ht : m < t)
    (s₁ : RoleStore) (req₁ : RoleRequest) (r₁ : Remote) (n₁ : Nat)
    (h₁t : req₁.ttl = some t) (h₁m : req₁.maxTTL = some m)
    (s₂ : RoleStore) (op₂ : Operation) (req₂ : RoleRequestTt) (r₂ : Remote) (n₂ : Nat)
    (h₂t : req₂.ttl = some t) (h₂m : req₂.maxTTL = some m)
    (s₃ : RoleStore) (op₃ : Operation) (req₃ : RoleRequestOld)
    (h₃t : req₃.ttl = some t) (h₃m : req₃.maxTTL = some m) :
    (pathRolesWriteCt s₁ req₁ r₁ n₁).rejectedNoOp s₁ ∧
    (pathRolesWriteTt s₂ op₂ req₂ r₂ n₂).rejectedNoOp s₂ ∧
    (pathRolesWriteOld s₃ op₃ req₃).rejectedNoOp s₃ := by
  have hmne : m ≠ 0 := by omega
  refine ⟨?_, ?_, ?_⟩
  · have hte : (mergeRoleRequestCt (getRole s₁ req₁.name) req₁).ttl = t := by
      simp [mergeRoleRequestCt, h₁t]
    have hme : (mergeRoleRequestCt (getRole s₁ req₁.name) req₁).maxTTL = m := by
      simp [mergeRoleRequestCt, h₁m]
    unfold pathRolesWriteCt
    by_cases h1 : req₁.name = ""
    · rw [if_pos h1]
      exact ⟨rfl, rfl, rfl, rfl⟩
    rw [if_neg h1]
    exact writeCtValidated_ttl_rejected _ _ _ _ _ _
      ⟨by rw [hme]; exact hmne, by rw [hte, hme]; exact ht⟩
  · have hte : (mergeRoleRequestTt op₂ (getRole s₂ req₂.name) req₂).ttl = t := by
      simp [mergeRoleRequestTt, mergeField, h₂t]
    have hme : (mergeRoleRequestTt op₂ (getRole s₂ req₂.name) req₂).maxTTL = m := by
      simp [mergeRoleRequestTt, mergeField, h₂m]
    unfold pathRolesWriteTt
    by_cases h1 : req₂.name = ""
    · rw [if_pos h1]
      exact ⟨rfl, rfl, rfl, rfl⟩
    rw [if_neg h1]
    by_cases h2 : req₂.teamOptions = some .invalid
    · rw [if_pos h2]
      exact ⟨rfl, rfl, rfl, rfl⟩
    rw [if_neg h2]
    exact writeTtValidated_ttl_rejected _ _ _ _ _
      ⟨by rw [hme]; exact hmne, by rw [hte, hme]; exact ht⟩
  · have hte : (mergeRoleRequestOld op₃ (getRole s₃ req₃.name) req₃).ttl = t := by
      simp [mergeRoleRequestOld, mergeField, h₃t]
    have hme : (mergeRoleRequestOld op₃ (getRole s₃ req₃.name) req₃).maxTTL = m := by
      simp [mergeRoleRequestOld, mergeField, h₃m]
    unfold pathRolesWriteOld pathRolesWriteOldValidated
    by_cases h1 : req₃.name = ""
    · rw [if_pos h1]
      exact ⟨rfl, rfl, rfl, rfl⟩
    rw [if_neg h1]
    by_cases h2 : req₃.organization = none ∧ op₃ = .create
    · rw [if_pos h2]
      exact ⟨rfl, rfl, rfl, rfl⟩
    rw [if_neg h2, if_pos ⟨by rw [hme]; exact hmne, by rw [hte, hme]; exact ht⟩]
    exact ⟨rfl, rfl, rfl, rfl⟩

/-- Witness for role_write_ttl_gt_maxttl_rejected at ttl 7 and max ttl 3
on fresh stores. -/
theorem role_write_ttl_gt_maxttl_rejected_witness :
    (pathRolesWriteCt []
        ⟨"r1", none, some "acme", none, none, none, some 7, some 3⟩
        remoteExample 0).rejectedNoOp [] ∧
    (pathRolesWriteTt [] .create
        ⟨"r1", none, some "acme", none, none, none, some 7, some 3⟩
        remoteExample 0).rejectedNoOp [] ∧
    (pathRolesWriteOld [] .create
        ⟨"r1", some "acme", none, some 7, some 3⟩).rejectedNoOp [] :=
  role_write_ttl_gt_maxttl_rejected 7 3 (by omega) (by omega)
    [] ⟨"r1", none, some "acme", none, none, none, some 7, some 3⟩ remoteExample 0
    rfl rfl
    [] .create ⟨"r1", none, some "acme", none, none, none, some 7, some 3⟩
    remoteExample 0 rfl rfl
    [] .create ⟨"r1", some "acme", none, some 7, some 3⟩ rfl rfl

/-- C7: a role-write request supplying a non-empty user id together with a
non-empty organization name or team id is rejected with a validation error
response by both the credential_type and the token_type role-write
variants, with no token minted and storage unchanged. -/
theorem role_write_conflicting_identifiers_rejected
    (s₁ : RoleStore) (req₁ : RoleRequest) (r₁ : Remote) (n₁ : Nat)
    (u₁ : String) (hu₁ : req₁.userID = some u₁) (hu₁ne : u₁ ≠ "")
    (hconf₁ : (∃ og, req₁.organization = some og ∧ og ≠ "") ∨
              (∃ td, req₁.teamID = some td ∧ td ≠ ""))
    (s₂ : RoleStore) (op₂ : Operation) (req₂ : RoleRequestTt) (r₂ : Remote) (n₂ : Nat)
    (u₂ : String) (hu₂ : req₂.userID = some u₂) (hu₂ne : u₂ ≠ "")
    (hconf₂ : (∃ og, req₂.organization = some og ∧ og ≠ "") ∨
              (∃ td, req₂.teamID = some td ∧ td ≠ ""))
    (hcl₂ : r₂.clientOk = true) :
    (pathRolesWriteCt s₁ req₁ r₁ n₁).rejectedNoOp s₁ ∧
    (pathRolesWriteTt s₂ op₂ req₂ r₂ n₂).rejectedNoOp s₂ := by
  constructor
  · have hu : (mergeRoleRequestCt (getRole s₁ req₁.name) req₁).userID ≠ "" := by
      simp [mergeRoleRequestCt, hu₁, hu₁ne]
    have hot : (mergeRoleRequestCt (getRole s₁ req₁.name) req₁).organization ≠ "" ∨
               (mergeRoleRequestCt (getRole s₁ req₁.name) req₁).teamID ≠ "" := by
      rcases hconf₁ with ⟨og, hog, hogne⟩ | ⟨td, htd, htdne⟩
      · exact Or.inl (by simp [mergeRoleRequestCt, hog, hogne])
      · exact Or.inr (by simp [mergeRoleRequestCt, htd, htdne])
    unfold pathRolesWriteCt
    by_cases h1 : req₁.name = ""
    · rw [if_pos h1]
      exact ⟨rfl, rfl, rfl, rfl⟩
    rw [if_neg h1]
    exact writeCtValidated_conflict_rejected _ _ _ _ _ _ hu hot
  · have hu : (mergeRoleRequestTt op₂ (getRole s₂ req₂.name) req₂).userID ≠ "" := by
      simp [mergeRoleRequestTt, mergeField, hu₂, hu₂ne]
    have hot : (mergeRoleRequestTt op₂ (getRole s₂ req₂.name) req₂).organization ≠ "" ∨
               (mergeRoleRequestTt op₂ (getRole s₂ req₂.name) req₂).teamID ≠ "" := by
      rcases hconf₂ with ⟨og, hog, hogne⟩ | ⟨td, htd, htdne⟩
      · exact Or.inl (by simp [mergeRoleRequestTt, mergeField, hog, hogne])
      · exact Or.inr (by simp [mergeRoleRequestTt, mergeField, htd, htdne])
    unfold pathRolesWriteTt
    by_cases h1 : req₂.name = ""
    · rw [if_pos h1]
      exact ⟨rfl, rfl, rfl, rfl⟩
    rw [if_neg h1]
    by_cases h2 : req₂.teamOptions = some .invalid
    · rw [if_pos h2]
      exact ⟨rfl, rfl, rfl, rfl⟩
    rw [if_neg h2]
    exact writeTtValidated_conflict_rejected _ _ _ _ _ hu hot hcl₂

/-- Witness for role_write_conflicting_identifiers_rejected at a request
supplying both user-1 and organization acme on fresh stores. -/
theorem role_write_conflicting_identifiers_rejected_witness :
    (pathRolesWriteCt []
        ⟨"r1", none, some "acme", some "user-1", none, none, none, none⟩
        remoteExample 0).rejectedNoOp [] ∧
    (pathRolesWriteTt [] .create
        ⟨"r1", none, some "acme", none, some "user-1", none, none, none⟩
        remoteExample 0).rejectedNoOp [] :=
  role_write_conflicting_identifiers_rejected
    [] ⟨"r1", none, some "acme", some "user-1", none, none, none, none⟩
    remoteExample 0 "user-1" rfl (by decide)
    (Or.inl ⟨"acme", rfl, by decide⟩)
    [] .create ⟨"r1", none, some "acme", none, some "user-1", none, none, none⟩
    remoteExample 0 "user-1" rfl (by decide)
    (Or.inl ⟨"acme", rfl, by decide⟩) rfl

/-- C3: a successful role-write of an organization or legacy-team kind
mints its remote token exactly once, during the write, and caches it on
the stored role entry; every subsequent credentials read of that entry
returns exactly the cached token in a plain response with no remote
token-creation call, for any remote oracle and mint counter — so two
consecutive creds reads with no intervening write return equal values. -/
theorem singleton_write_mints_once_creds_cached
    (s : RoleStore) (req : RoleRequest) (r : Remote) (n : Nat)
    (res : WriteResult) (hw : pathRolesWriteCt s req r n = res)
    (hresp : res.respErr = none) (herr : res.err = none)
    (e : RoleEntry) (he : getRole res.store req.name = some e)
    (hkind : e.credentialType = "organization" ∨ e.credentialType = "team_legacy")
    (huser : e.userID = "") (hmulti : e.multipleTeamTokens = false)
    (rr : Remote) (m : Nat) :
    ((res.calls.filter (fun c => c.isTokenCreation)).length = 1 ∧
     res.nextMint = n + 1 ∧ (r.mint n).isSome ∧
     e.token = ((r.mint n).getD ⟨"", "", ""⟩).token ∧
     e.tokenID = ((r.mint n).getD ⟨"", "", ""⟩).id) ∧
    pathCredentialsRead res.store req.name rr m
      = ([], .ok (cachedPlainResponse e), m) := by
  unfold pathRolesWriteCt at hw
  by_cases hn : req.name = ""
  · rw [if_pos hn] at hw
    cases hw
    simp at hresp
  rw [if_neg hn] at hw
  set E := mergeRoleRequestCt (getRole s req.name) req with hE
  unfold pathRolesWriteCtValidated at hw
  by_cases c0 : (match req.credentialType with
      | some ct => !validCredentialType ct
      | none => false) = true
  · rw [if_pos c0] at hw
    cases hw
    simp at hresp
  rw [if_neg c0] at hw
  by_cases c1 : E.userID ≠ "" ∧ (E.organization ≠ "" ∨ E.teamID ≠ "")
  · rw [if_pos c1] at hw
    cases hw
    simp at hresp
  rw [if_neg c1] at hw
  by_cases c2 : E.userID = "" ∧ E.organization = "" ∧ E.teamID = ""
  · rw [if_pos c2] at hw
    cases hw
    simp at hresp
  rw [if_neg c2] at hw
  by_cases c3 : E.maxTTL ≠ 0 ∧ E.ttl > E.maxTTL
  · rw [if_pos c3] at hw
    cases hw
    simp at hresp
  rw [if_neg c3] at hw
  by_cases c4 : E.credentialType = "team_legacy" ∧
      (E.description ≠ "" ∨ E.ttl ≠ 0 ∨ E.maxTTL ≠ 0)
  · rw [if_pos c4] at hw
    cases hw
    simp at herr
  rw [if_neg c4] at hw
  by_cases c5 : E.credentialType = "organization" ∨ E.credentialType = "team_legacy"
  · rw [if_pos c5] at hw
    rcases hct : createToken r n E with ⟨calls, tk, mm⟩
    rw [hct] at hw
    rcases tk with - | tok
    · cases hw
      simp at herr
    · cases hw
      rw [getRole_setRole] at he
      injection he with he
      obtain ⟨hlen, hm, hmint⟩ := createToken_ok_inv r n E calls tok mm hct
      subst he
      refine ⟨⟨hlen, hm, by simp [hmint], by simp [hmint], by simp [hmint]⟩, ?_⟩
      exact pathCredentialsRead_cached _ _ _ _ _ (getRole_setRole _ _ _) huser hmulti
  · rw [if_neg c5] at hw
    cases hw
    rw [getRole_setRole] at he
    injection he with he
    subst he
    exact absurd hkind c5

/-- Witness for singleton_write_mints_once_creds_cached: a fresh write of
an organization role acme mints once and creds reads return the cached
token. -/
theorem singleton_write_mints_once_creds_cached_witness :
    (((pathRolesWriteCt []
          ⟨"r1", none, some "acme", none, none, none, none, none⟩
          remoteExample 0).calls.filter (fun c => c.isTokenCreation)).length = 1 ∧
     (pathRolesWriteCt []
          ⟨"r1", none, some "acme", none, none, none, none, none⟩
          remoteExample 0).nextMint = 0 + 1 ∧
     (remoteExample.mint 0).isSome ∧
     (⟨"r1", "acme", "", "", "", 0, 0, "organization", "", false, none,
        "sek-0", "at-0"⟩ : RoleEntry).token
       = ((remoteExample.mint 0).getD ⟨"", "", ""⟩).token ∧
     (⟨"r1", "acme", "", "", "", 0, 0, "organization", "", false, none,
        "sek-0", "at-0"⟩ : RoleEntry).tokenID
       = ((remoteExample.mint 0).getD ⟨"", "", ""⟩).id) ∧
    pathCredentialsRead
        (pathRolesWriteCt []
          ⟨"r1", none, some "acme", none, none, none, none, none⟩
          remoteExample 0).store "r1" remoteExample 5
      = ([], .ok (cachedPlainResponse
          ⟨"r1", "acme", "", "", "", 0, 0, "organization", "", false, none,
           "sek-0", "at-0"⟩), 5) :=
  singleton_write_mints_once_creds_cached
    [] ⟨"r1", none, some "acme", none, none, none, none, none⟩ remoteExample 0
    (pathRolesWriteCt [] ⟨"r1", none, some "acme", none, none, none, none, none⟩
      remoteExample 0)
    rfl rfl rfl
    ⟨"r1", "acme", "", "", "", 0, 0, "organization", "", false, none,
     "sek-0", "at-0"⟩
    rfl (Or.inl rfl) rfl rfl remoteExample 5

/-- C4: for user roles, multi-team-token roles and (spec-modelled)
dynamic-team roles, every credentials read issues exactly one remote
token-creation call and returns the freshly minted token as a leased
secret; when the remote returns distinct token values on the two calls,
two consecutive reads return different responses. -/
theorem per_read_kinds_mint_fresh_tokens
    (s : RoleStore) (name : String) (r : Remote) (n : Nat)
    (hcl : r.clientOk = true)
    (t t2 : TerraformToken) (hm1 : r.mint n = some t)
    (hm2 : r.mint (n + 1) = some t2) (hfresh : t.token ≠ t2.token)
    (e : RoleEntry) (hge : getRole s name = some e)
    (hu : e.userID ≠ "") (ho : e.organization = "") (htid : e.teamID = "")
    (s2 : RoleStore) (name2 : String) (e2 : RoleEntry)
    (hge2 : getRole s2 name2 = some e2)
    (h2u : e2.userID = "") (h2t : e2.teamID ≠ "")
    (h2m : e2.multipleTeamTokens = true)
    (e3 : RoleEntry) :
    (pathCredentialsRead s name r n
       = ([.createUserToken e.userID], .ok (mintedLeasedResponse e t), n + 1) ∧
     pathCredentialsRead s name r (n + 1)
       = ([.createUserToken e.userID], .ok (mintedLeasedResponse e t2), n + 1 + 1) ∧
     mintedLeasedResponse e t ≠ mintedLeasedResponse e t2) ∧
    (pathCredentialsRead s2 name2 r n
       = ([.createTeamTokenWithOptions e2.teamID],
          .ok (mintedLeasedResponse e2 t), n + 1) ∧
     pathCredentialsRead s2 name2 r (n + 1)
       = ([.createTeamTokenWithOptions e2.teamID],
          .ok (mintedLeasedResponse e2 t2), n + 1 + 1) ∧
     mintedLeasedResponse e2 t ≠ mintedLeasedResponse e2 t2) ∧
    (createDynamicTeamCreds r n e3
       = ([.createTeam e3.organization, .createTeamTokenWithOptions (r.newTeamID n)],
          .ok (dynamicTeamLeasedResponse e3 (r.newTeamID n) t), n + 1) ∧
     createDynamicTeamCreds r (n + 1) e3
       = ([.createTeam e3.organization,
           .createTeamTokenWithOptions (r.newTeamID (n + 1))],
          .ok (dynamicTeamLeasedResponse e3 (r.newTeamID (n + 1)) t2), n + 1 + 1) ∧
     dynamicTeamLeasedResponse e3 (r.newTeamID n) t
       ≠ dynamicTeamLeasedResponse e3 (r.newTeamID (n + 1)) t2) := by
  refine ⟨⟨?_, ?_, ?_⟩, ⟨?_, ?_, ?_⟩, ⟨?_, ?_, ?_⟩⟩
  · simp [pathCredentialsRead, hge, hu, createUserCreds, createToken,
      isOrgToken, isTeamToken, createUserToken, hcl, ho, htid, hm1]
  · simp [pathCredentialsRead, hge, hu, createUserCreds, createToken,
      isOrgToken, isTeamToken, createUserToken, hcl, ho, htid, hm2]
  · simp [mintedLeasedResponse, hfresh]
  · simp [pathCredentialsRead, hge2, h2u, h2t, h2m, createMultiTeamCreds,
      createToken, isOrgToken, isTeamToken, createTeamTokenWithOptions, hcl, hm1]
  · simp [pathCredentialsRead, hge2, h2u, h2t, h2m, createMultiTeamCreds,
      createToken, isOrgToken, isTeamToken, createTeamTokenWithOptions, hcl, hm2]
  · simp [mintedLeasedResponse, hfresh]
  · simp [createDynamicTeamCreds, hcl, hm1]
  · simp [createDynamicTeamCreds, hcl, hm2]
  · simp [dynamicTeamLeasedResponse, hfresh]

/-- Witness for per_read_kinds_mint_fresh_tokens at concrete user,
multi-team and dynamic-team roles with the distinct-token oracle. -/
theorem per_read_kinds_mint_fresh_tokens_witness :
    (pathCredentialsRead
        [("ru", ⟨"ru", "", "", "user-1", "", 0, 0, "user", "", false, none, "", ""⟩)]
        "ru" remoteExample 0
       = ([.createUserToken "user-1"],
          .ok (mintedLeasedResponse
            ⟨"ru", "", "", "user-1", "", 0, 0, "user", "", false, none, "", ""⟩
            ⟨"at-0", "", "sek-0"⟩), 0 + 1) ∧
     pathCredentialsRead
        [("ru", ⟨"ru", "", "", "user-1", "", 0, 0, "user", "", false, none, "", ""⟩)]
        "ru" remoteExample (0 + 1)
       = ([.createUserToken "user-1"],
          .ok (mintedLeasedResponse
            ⟨"ru", "", "", "user-1", "", 0, 0, "user", "", false, none, "", ""⟩
            ⟨"at-1", "", "sek-1"⟩), 0 + 1 + 1) ∧
     mintedLeasedResponse
        ⟨"ru", "", "", "user-1", "", 0, 0, "user", "", false, none, "", ""⟩
        ⟨"at-0", "", "sek-0"⟩
       ≠ mintedLeasedResponse
        ⟨"ru", "", "", "user-1", "", 0, 0, "user", "", false, none, "", ""⟩
        ⟨"at-1", "", "sek-1"⟩) ∧
    (pathCredentialsRead
        [("rm", ⟨"rm", "acme", "team-9", "", "", 0, 0, "team", "", true, none, "", ""⟩)]
        "rm" remoteExample 0
       = ([.createTeamTokenWithOptions "team-9"],
          .ok (mintedLeasedResponse
            ⟨"rm", "acme", "team-9", "", "", 0, 0, "team", "", true, none, "", ""⟩
            ⟨"at-0", "", "sek-0"⟩), 0 + 1) ∧
     pathCredentialsRead
        [("rm", ⟨"rm", "acme", "team-9", "", "", 0, 0, "team", "", true, none, "", ""⟩)]
        "rm" remoteExample (0 + 1)
       = ([.createTeamTokenWithOptions "team-9"],
          .ok (mintedLeasedResponse
            ⟨"rm", "acme", "team-9", "", "", 0, 0, "team", "", true, none, "", ""⟩
            ⟨"at-1", "", "sek-1"⟩), 0 + 1 + 1) ∧
     mintedLeasedResponse
        ⟨"rm", "acme", "team-9", "", "", 0, 0, "team", "", true, none, "", ""⟩
        ⟨"at-0", "", "sek-0"⟩
       ≠ mintedLeasedResponse
        ⟨"rm", "acme", "team-9", "", "", 0, 0, "team", "", true, none, "", ""⟩
        ⟨"at-1", "", "sek-1"⟩) ∧
    (createDynamicTeamCreds remoteExample 0
        ⟨"rd", "acme", "", "", "", 0, 0, "", "dynamic_team", false,
         some ⟨"secret"⟩, "", ""⟩
       = ([.createTeam "acme", .createTeamTokenWithOptions (remoteExample.newTeamID 0)],
          .ok (dynamicTeamLeasedResponse
            ⟨"rd", "acme", "", "", "", 0, 0, "", "dynamic_team", false,
             some ⟨"secret"⟩, "", ""⟩
            (remoteExample.newTeamID 0) ⟨"at-0", "", "sek-0"⟩), 0 + 1) ∧
     createDynamicTeamCreds remoteExample (0 + 1)
        ⟨"rd", "acme", "", "", "", 0, 0, "", "dynamic_team", false,
         some ⟨"secret"⟩, "", ""⟩
       = ([.createTeam "acme",
           .createTeamTokenWithOptions (remoteExample.newTeamID (0 + 1))],
          .ok (dynamicTeamLeasedResponse
            ⟨"rd", "acme", "", "", "", 0, 0, "", "dynamic_team", false,
             some ⟨"secret"⟩, "", ""⟩
            (remoteExample.newTeamID (0 + 1)) ⟨"at-1", "", "sek-1"⟩), 0 + 1 + 1) ∧
     dynamicTeamLeasedResponse
        ⟨"rd", "acme", "", "", "", 0, 0, "", "dynamic_team", false,
         some ⟨"secret"⟩, "", ""⟩
        (remoteExample.newTeamID 0) ⟨"at-0", "", "sek-0"⟩
       ≠ dynamicTeamLeasedResponse
        ⟨"rd", "acme", "", "", "", 0, 0, "", "dynamic_team", false,
         some ⟨"secret"⟩, "", ""⟩
        (remoteExample.newTeamID (0 + 1)) ⟨"at-1", "", "sek-1"⟩) :=
  per_read_kinds_mint_fresh_tokens
    [("ru", ⟨"ru", "", "", "user-1", "", 0, 0, "user", "", false, none, "", ""⟩)]
    "ru" remoteExample 0 rfl
    ⟨"at-0", "", "sek-0"⟩ ⟨"at-1", "", "sek-1"⟩ rfl rfl (by decide)
    ⟨"ru", "", "", "user-1", "", 0, 0, "user", "", false, none, "", ""⟩
    rfl (by decide) rfl rfl
    [("rm", ⟨"rm", "acme", "team-9", "", "", 0, 0, "team", "", true, none, "", ""⟩)]
    "rm"
    ⟨"rm", "acme", "team-9", "", "", 0, 0, "team", "", true, none, "", ""⟩
    rfl rfl (by decide) rfl
    ⟨"rd", "acme", "", "", "", 0, 0, "", "dynamic_team", false,
     some ⟨"secret"⟩, "", ""⟩

end TfPlugin
